import Mathlib

/-!
Verification of the `let_value` chaining combinator
(`include/unifex/let_value.hpp`).

The development has two parts:

1. An operational model of the operation state's lifecycle: the
   predecessor receiver's `set_value` / `set_done` / `set_error`
   (lines 140-205), the cleanup function-pointer state machine
   (`cleanup_`, `deactivatePredOp`, `destructValues`,
   `deactivateSuccOpAndDestructValues`, lines 261-296), and the
   successor receiver's forwarding (lines 60-115).

2. A model of the compile-time completion-signature calculus of
   `_sender::type` (lines 328-441): `value_types`, `error_types`,
   `sends_done` and the `blocking` computations, with C++ types
   represented by an abstract type of type names.

External collaborators (the connect/start/receiver protocol,
`manual_lifetime_union`) are abstracted as parameters of the model,
matching the spec's "consumed capabilities" boundary.
-/

namespace LetValue

/-- Completion outcome of a single asynchronous operation: one of the three
completion channels success-with-values / error / cancellation (done). -/
inductive Outcome (V E : Type) where
  | value (v : V)
  | error (e : E)
  | done
deriving DecidableEq, Repr

/-- Notification delivered to the final receiver.  The error channel is the
disjoint union of the predecessor's error type `E`, the successor's error
type `F`, and the exception type `X` (`std::current_exception()` values
produced by the UNIFEX_CATCH block, line 192). -/
inductive FinalNote (W E F X : Type) where
  | value (w : W)
  | error (e : E ⊕ F ⊕ X)
  | done
deriving DecidableEq, Repr

/-- Forwarding done by `_successor_receiver::type` (lines 68-87): each of the
successor's completions is relayed verbatim to the final receiver, with the
successor's error injected into the combined error channel. -/
def Outcome.toNote {W E F X : Type} : Outcome W F → FinalNote W E F X
  | .value w => .value w
  | .error f => .error (.inr (.inl f))
  | .done => .done

/-- The three members of the operation state's overlapping storage:
`predOp_` (the predecessor operation, line 291), `values_` (the decayed
value tuple, line 287) and `succOp_` (the successor operation, line 294). -/
inductive Member where
  | predOp
  | values
  | succOp
deriving DecidableEq, Repr

/-- The value of the `cleanup_` function pointer (line 296): one of the three
static teardown procedures of `_op::type` (lines 266-280), or the null
pointer left by `std::exchange(op.cleanup_, nullptr)` (line 159) while the
operation is temporarily in an invalid state. -/
inductive Cleanup where
  | deactivatePredOp
  | destructValues
  | deactivateSuccOpAndDestructValues
  | null
deriving DecidableEq, Repr

/-- Which storage members each teardown procedure destroys, in the order the
source destroys them: `deactivatePredOp` deactivates `predOp_` (line 267),
`destructValues` destructs `values_` (line 272),
`deactivateSuccOpAndDestructValues` deactivates `succOp_` then destructs
`values_` (lines 277-279).  The null pointer destroys nothing (calling it
is a crash, modelled separately). -/
def Cleanup.destroys : Cleanup → List Member
  | .deactivatePredOp => [.predOp]
  | .destructValues => [.values]
  | .deactivateSuccOpAndDestructValues => [.succOp, .values]
  | .null => []

/-- Construction-progress stage of each `cleanup_` value, in the order the
success path of `set_value` assigns them: the default `deactivatePredOp`
(line 296), the null marker (line 159), `destructValues` (line 168),
`deactivateSuccOpAndDestructValues` (line 184). -/
def Cleanup.stage : Cleanup → Nat
  | .deactivatePredOp => 0
  | .null => 1
  | .destructValues => 2
  | .deactivateSuccOpAndDestructValues => 3

/-- Lifecycle state of `_op::type`: the current `cleanup_` pointer and which
members of the overlapping storage are currently alive.  (The liveness
flags are meta-state: in C++ they are implicit in which union member /
`manual_lifetime` slot has been activated and not yet deactivated.) -/
structure OpState where
  cleanup : Cleanup
  predOpLive : Bool
  valuesLive : Bool
  succOpLive : Bool
deriving DecidableEq, Repr

/-- State of `_op::type` right after its constructor (lines 250-259) ran:
`predOp_` has been activated with the connected predecessor operation, and
`cleanup_` holds its default initializer `deactivatePredOp` (line 296). -/
def initialState : OpState :=
  { cleanup := .deactivatePredOp
    predOpLive := true
    valuesLive := false
    succOpLive := false }

/-- Observable events of one run: construction/destruction of storage
members, invocation of the successor factory (`std::apply(std::move(op.func_),
valueTuple)`, line 177) with the decayed copy it receives, reassignments of
`cleanup_`, the `unifex::start(succOp)` call (line 186), and completion
notifications delivered to the final receiver. -/
inductive Event (C W E F X : Type) where
  | constructed (m : Member)
  | destroyed (m : Member)
  | factoryCalled (c : C)
  | setCleanup (c : Cleanup)
  | startedSucc
  | notify (n : FinalNote W E F X)
deriving DecidableEq, Repr

/-- Notifications delivered to the final receiver, in order. -/
def notes {C W E F X : Type} (evs : List (Event C W E F X)) :
    List (FinalNote W E F X) :=
  evs.filterMap fun ev =>
    match ev with
    | .notify n => some n
    | _ => none

/-- Arguments of the successor-factory invocations, in order. -/
def factoryCalls {C W E F X : Type} (evs : List (Event C W E F X)) : List C :=
  evs.filterMap fun ev =>
    match ev with
    | .factoryCalled c => some c
    | _ => none

/-- Values assigned to `cleanup_` during a run, in order. -/
def cleanupSets {C W E F X : Type} (evs : List (Event C W E F X)) :
    List Cleanup :=
  evs.filterMap fun ev =>
    match ev with
    | .setCleanup c => some c
    | _ => none

/-- Storage members destroyed during a run, in order. -/
def destroyedMembers {C W E F X : Type} (evs : List (Event C W E F X)) :
    List Member :=
  evs.filterMap fun ev =>
    match ev with
    | .destroyed m => some m
    | _ => none

/-- Storage members constructed during a run, in order. -/
def constructedMembers {C W E F X : Type} (evs : List (Event C W E F X)) :
    List Member :=
  evs.filterMap fun ev =>
    match ev with
    | .constructed m => some m
    | _ => none

/-- Parameters of one concrete instantiation of the combinator, abstracting
the external collaborators:

* `copyVals` — constructing the decayed copy of the predecessor's values in
  `values_` (`op.values_.construct<decayed_tuple<Values...>>(...)`,
  lines 147-149); it either throws an exception `X` or yields the copy `C`;
* `nothrowConn` — the compile-time condition of lines 161-165: `true` when
  invoking the factory and connecting the successor are both provably
  non-throwing (so the `cleanup_ = destructValues` store is skipped);
* `factoryConnect` — invoking the factory on the stored copy and connecting
  the resulting successor sender (`unifex::connect(std::apply(...),
  successor_receiver{op})`, lines 176-178); either throws or yields the
  successor operation `S`;
* `startSucc` — the outcome the successor operation eventually delivers to
  the successor receiver once started (line 186). -/
structure Model (V C W E F X S : Type) where
  copyVals : V → Except X C
  nothrowConn : Bool
  factoryConnect : C → Except X S
  startSucc : S → Outcome W F

/-- Well-formedness of a model: when the compile-time condition of
lines 161-165 reports that invoking the factory and connecting the
successor cannot throw, `factoryConnect` indeed never throws. -/
def Model.NothrowConsistent {V C W E F X S : Type}
    (m : Model V C W E F X S) : Prop :=
  m.nothrowConn = true → ∀ c : C, ∃ so : S, m.factoryConnect c = .ok so

/-- Model of `_predecessor_receiver::type::set_value` (lines 140-194) acting
on the operation state, returning the final state and the event trace:

1. construct the decayed copy in `values_`; if this throws, `cleanup_` is
   unchanged and the catch block reports the exception (lines 188-193);
2. `std::exchange(op.cleanup_, nullptr)(&op)`: leave the null marker and run
   `deactivatePredOp`, destroying `predOp_` (line 159);
3. unless the successor construction is provably non-throwing, set
   `cleanup_ = destructValues` (lines 161-169);
4. invoke the factory on the stored copy and connect the successor; if this
   throws, the catch block reports the exception (lines 171-179, 188-193);
5. on success, activate `succOp_`, set
   `cleanup_ = deactivateSuccOpAndDestructValues` (lines 181-184), start the
   successor (line 186); its completion is forwarded verbatim by the
   successor receiver (lines 68-87). -/
def predSetValue {V C W E F X S : Type} (m : Model V C W E F X S)
    (st : OpState) (vs : V) : OpState × List (Event C W E F X) :=
  match m.copyVals vs with
  | .error x => (st, [.notify (.error (.inr (.inr x)))])
  | .ok c =>
    let st1 : OpState := { st with valuesLive := true }
    let st2 : OpState := { st1 with cleanup := .null, predOpLive := false }
    let st3 : OpState :=
      if m.nothrowConn then st2 else { st2 with cleanup := .destructValues }
    let evs3 : List (Event C W E F X) :=
      [.constructed .values, .setCleanup .null, .destroyed .predOp] ++
        (if m.nothrowConn then [] else [.setCleanup .destructValues]) ++
        [.factoryCalled c]
    match m.factoryConnect c with
    | .error x => (st3, evs3 ++ [.notify (.error (.inr (.inr x)))])
    | .ok so =>
      let st4 : OpState :=
        { st3 with
          succOpLive := true
          cleanup := .deactivateSuccOpAndDestructValues }
      (st4,
        evs3 ++
          [.constructed .succOp,
           .setCleanup .deactivateSuccOpAndDestructValues,
           .startedSucc,
           .notify (Outcome.toNote (m.startSucc so))])

/-- Model of `_predecessor_receiver::type::set_done` (lines 196-199):
forward cancellation to the final receiver; the state is untouched. -/
def predSetDone {V C W E F X S : Type} (_m : Model V C W E F X S)
    (st : OpState) : OpState × List (Event C W E F X) :=
  (st, [.notify .done])

/-- Model of `_predecessor_receiver::type::set_error` (lines 201-205):
forward the predecessor's error verbatim; the state is untouched. -/
def predSetError {V C W E F X S : Type} (_m : Model V C W E F X S)
    (st : OpState) (e : E) : OpState × List (Event C W E F X) :=
  (st, [.notify (.error (.inl e))])

/-- One full run of the combinator from the freshly constructed operation
state: the predecessor completes with `out`, dispatching to the matching
completion handler of `_predecessor_receiver::type`. -/
def runPred {V C W E F X S : Type} (m : Model V C W E F X S)
    (out : Outcome V E) : OpState × List (Event C W E F X) :=
  match out with
  | .value vs => predSetValue m initialState vs
  | .error e => predSetError m initialState e
  | .done => predSetDone m initialState

/-- Model of `_op::type::~type` (line 261): invoke the recorded `cleanup_`
procedure, returning the members it destroys in order; invoking the null
pointer is a crash, modelled as `none`. -/
def destructor (st : OpState) : Option (List Member) :=
  match st.cleanup with
  | .null => none
  | c => some c.destroys

/-- Whether a storage member is currently live. -/
def OpState.live (st : OpState) : Member → Bool
  | .predOp => st.predOpLive
  | .values => st.valuesLive
  | .succOp => st.succOpLive

/-- The cleanup selector matches exactly the set of live storage members, in
the correspondence the source establishes: `deactivatePredOp` when only
`predOp_` is live, `destructValues` when only `values_` is live,
`deactivateSuccOpAndDestructValues` when `values_` and `succOp_` are both
live. -/
def cleanupMatchesLive (st : OpState) : Prop :=
  (st.cleanup = .deactivatePredOp ∧
      st.predOpLive = true ∧ st.valuesLive = false ∧ st.succOpLive = false) ∨
  (st.cleanup = .destructValues ∧
      st.predOpLive = false ∧ st.valuesLive = true ∧ st.succOpLive = false) ∨
  (st.cleanup = .deactivateSuccOpAndDestructValues ∧
      st.predOpLive = false ∧ st.valuesLive = true ∧ st.succOpLive = true)

instance (st : OpState) : Decidable (cleanupMatchesLive st) := by
  unfold cleanupMatchesLive
  infer_instance

/-! ## Completion-signature calculus (`_sender::type`, lines 328-441) -/

/-- Modelled from the spec: the blocking classification of an operation
descriptor (`blocking_kind` comes from `blocking.hpp`, which is not under
`src/`).  The spec orders classifications by severity — a "maximum-severity"
classification is taken over successors and then "capped at maybe", so
`maybe` sits strictly below the always-synchronous classifications, and
`never` (always asynchronous) is the least severe. -/
inductive BlockingKind where
  | never
  | maybe
  | always
  | alwaysInline
deriving DecidableEq, Repr

/-- Severity rank of a blocking classification, used for `std::max` /
`std::min` comparisons. -/
def BlockingKind.rank : BlockingKind → Nat
  | .never => 0
  | .maybe => 1
  | .always => 2
  | .alwaysInline => 3

instance : LinearOrder BlockingKind :=
  LinearOrder.lift' BlockingKind.rank fun a b h => by
    cases a <;> cases b <;> first | rfl | simp [BlockingKind.rank] at h

/-- Sender-trait data of one operation descriptor, with C++ types drawn from
an abstract type `Ty` of type names: the list of success-value tuple shapes
(`value_types`), the list of error types (`error_types`), the cancellation
flag (`sends_done`) and the static blocking classification. -/
structure SenderSig (Ty : Type) where
  valueShapes : List (List Ty)
  errorTypes : List Ty
  sendsDone : Bool
  blocking : BlockingKind

/-- Inputs of the combinator's signature calculus: the predecessor's traits,
the map from a (decayed) success-value shape to the traits of
`successor_type<Values...>` (the sender the factory yields for that shape,
lines 335-337), and the type name standing for `std::exception_ptr`. -/
structure LetValueSig (Ty : Type) where
  pred : SenderSig Ty
  succOf : List Ty → SenderSig Ty
  exceptionPtr : Ty

/-- Trait data of every possible successor type, one per predecessor
success-value shape: `successor_types` (lines 339-341) instantiated with the
predecessor's `value_types`. -/
def successors {Ty : Type} (sig : LetValueSig Ty) : List (SenderSig Ty) :=
  sig.pred.valueShapes.map sig.succOf

/-- Modelled from the spec: `concat_type_lists_unique_t` (`type_list.hpp`,
not under `src/`) — the spec describes the result as the union of the given
type lists, so membership is membership in the concatenation, with
duplicates removed. -/
def concatUnique {α : Type} [DecidableEq α] (ls : List (List α)) : List α :=
  ls.flatten.dedup

/-- Model of `value_types` (lines 343-351, 374-379): the deduplicated
concatenation, over every possible successor type, of that successor's own
success-value shapes. -/
def letValueValueTypes {Ty : Type} [DecidableEq Ty] (sig : LetValueSig Ty) :
    List (List Ty) :=
  concatUnique ((successors sig).map (·.valueShapes))

/-- Model of `error_types` (lines 366-372, 381-383): the deduplicated
concatenation of every possible successor type's error types, followed by
the one-element list holding `std::exception_ptr`. -/
def letValueErrorTypes {Ty : Type} [DecidableEq Ty] (sig : LetValueSig Ty) :
    List Ty :=
  concatUnique ((successors sig).map (·.errorTypes) ++ [[sig.exceptionPtr]])

/-- Model of `sends_done` (lines 385-386): the predecessor sends done, or
some possible successor type does (`any_sends_done`, lines 308-313). -/
def letValueSendsDone {Ty : Type} (sig : LetValueSig Ty) : Bool :=
  sig.pred.sendsDone || (successors sig).any (·.sendsDone)

/-- Model of `max_blocking_kind` (lines 319-326): `*std::max_element` over
the array holding the first sender's blocking classification followed by the
rest. -/
def maxBlockingKind (first : BlockingKind) (rest : List BlockingKind) :
    BlockingKind :=
  rest.foldl max first

/-- Blocking classification of every possible successor type, one per
predecessor success-value shape. -/
def successorBlockings {Ty : Type} (sig : LetValueSig Ty) :
    List BlockingKind :=
  (successors sig).map (·.blocking)

/-- Model of the static `blocking` member (lines 388-392):
`std::max(pred_static, std::min(max_blocking_kind over successors, maybe))`.
`max_blocking_kind` requires at least one successor type (the predecessor
has at least one value shape); with none the C++ does not instantiate, and
the model returns `maybe` in that vacuous case. -/
def letValueBlockingStatic {Ty : Type} (sig : LetValueSig Ty) :
    BlockingKind :=
  match successorBlockings sig with
  | [] => .maybe
  | first :: rest =>
    max sig.pred.blocking (min (maxBlockingKind first rest) .maybe)

/-- Model of the runtime `tag_invoke(tag_t<unifex::blocking>, ...)` query
(lines 426-435): the predecessor's actual runtime blocking value combined
with the static worst case over successors by the same formula. -/
def letValueBlockingRuntime {Ty : Type} (sig : LetValueSig Ty)
    (predRuntime : BlockingKind) : BlockingKind :=
  match successorBlockings sig with
  | [] => .maybe
  | first :: rest =>
    max predRuntime (min (maxBlockingKind first rest) .maybe)

/-! ## Concrete instantiations used as witnesses -/

/-- Example instantiation over `Nat`: every construction step succeeds
(and is declared non-throwing), and the successor obtained from the stored
copy `s` delivers the value `s + 1`. -/
def exampleModel : Model Nat Nat Nat Nat Nat Nat Nat where
  copyVals := fun v => .ok v
  nothrowConn := true
  factoryConnect := fun c => .ok c
  startSucc := fun s => .value (s + 1)

/-- Instantiation over `Nat` in which constructing the decayed value copy
throws the exception `7`. -/
def throwingCopyModel : Model Nat Nat Nat Nat Nat Nat Nat where
  copyVals := fun _ => .error 7
  nothrowConn := false
  factoryConnect := fun c => .ok c
  startSucc := fun s => .value s

/-- Instantiation over `Nat` in which the value copy succeeds but invoking
the factory / connecting the successor throws the exception `9`. -/
def throwingConnectModel : Model Nat Nat Nat Nat Nat Nat Nat where
  copyVals := fun v => .ok v
  nothrowConn := false
  factoryConnect := fun _ => .error 9
  startSucc := fun s => .value s

/-! ## Theorems -/

/-- C1: for every predecessor completion with success values whose decayed
copy is `c` and whose factory/connect step yields the successor operation
`so`, the factory is invoked exactly once, with the decayed copy `c`, and
the single notification delivered to the final receiver is exactly the
outcome of the successor operation `so`, forwarded by the successor
receiver. -/
theorem c1_factory_once_successor_outcome
    {V C W E F X S : Type} (m : Model V C W E F X S) (vs : V) (c : C) (so : S)
    (hcopy : m.copyVals vs = .ok c)
    (hconn : m.factoryConnect c = .ok so) :
    factoryCalls (runPred m (.value vs)).2 = [c] ∧
    notes (runPred m (.value vs)).2 = [Outcome.toNote (m.startSucc so)] := by
  cases hb : m.nothrowConn <;>
    simp [runPred, predSetValue, hcopy, hconn, hb, factoryCalls, notes]

/-- Witness for C1: in `exampleModel` the predecessor succeeds with `5`, the
factory is called once with the copy `5`, and the final receiver gets the
successor's outcome `6`. -/
theorem c1_witness :
    factoryCalls (runPred exampleModel (.value 5)).2 = [5] ∧
    notes (runPred exampleModel (.value 5)).2 = [.value 6] :=
  c1_factory_once_successor_outcome exampleModel 5 5 5 rfl rfl

/-- C2: a predecessor that completes with cancellation or with an error has
exactly that outcome forwarded to the final receiver (the identical error
value, injected at the predecessor's slot of the combined error channel);
the factory is never invoked, nothing is constructed or destroyed, and the
operation state (hence the successor storage) is untouched. -/
theorem c2_done_error_forwarded
    {V C W E F X S : Type} (m : Model V C W E F X S) (e : E) :
    runPred m (.done : Outcome V E) = (initialState, [.notify .done]) ∧
    runPred m (.error e) = (initialState, [.notify (.error (.inl e))]) ∧
    factoryCalls (runPred m (.done : Outcome V E)).2 = [] ∧
    factoryCalls (runPred m (.error e)).2 = [] ∧
    constructedMembers (runPred m (.done : Outcome V E)).2 = [] ∧
    constructedMembers (runPred m (.error e)).2 = [] ∧
    destroyedMembers (runPred m (.done : Outcome V E)).2 = [] ∧
    destroyedMembers (runPred m (.error e)).2 = [] :=
  ⟨rfl, rfl, rfl, rfl, rfl, rfl, rfl, rfl⟩

/-- C4: if constructing the decayed copy of the predecessor's values throws,
the final receiver observes exactly one notification — an error carrying the
thrown exception — the operation state is unchanged (so `cleanup_` still
reads `deactivatePredOp`), teardown destroys the predecessor operation
exactly once (the run itself destroyed nothing), and no successor is ever
constructed or destroyed. -/
theorem c4_value_copy_throws
    {V C W E F X S : Type} (m : Model V C W E F X S) (vs : V) (x : X)
    (hcopy : m.copyVals vs = .error x) :
    notes (runPred m (.value vs)).2 = [.error (.inr (.inr x))] ∧
    (runPred m (.value vs)).1 = initialState ∧
    destructor (runPred m (.value vs)).1 = some [Member.predOp] ∧
    constructedMembers (runPred m (.value vs)).2 = [] ∧
    destroyedMembers (runPred m (.value vs)).2 = [] := by
  simp [runPred, predSetValue, hcopy, notes, destructor, Cleanup.destroys,
    constructedMembers, destroyedMembers, initialState]

/-- Witness for C4: in `throwingCopyModel` the copy of the value `3` throws
the exception `7`; the final receiver sees that one error and teardown
destroys only the predecessor operation. -/
theorem c4_witness :
    notes (runPred throwingCopyModel (.value 3)).2 = [.error (.inr (.inr 7))] ∧
    (runPred throwingCopyModel (.value 3)).1 = initialState ∧
    destructor (runPred throwingCopyModel (.value 3)).1 = some [Member.predOp] ∧
    constructedMembers (runPred throwingCopyModel (.value 3)).2 = [] ∧
    destroyedMembers (runPred throwingCopyModel (.value 3)).2 = [] :=
  c4_value_copy_throws throwingCopyModel 3 7 rfl

/-- C5: if invoking the factory or connecting the successor throws (which can
only happen when the compile-time non-throwing check failed), the final
receiver observes exactly one notification — an error carrying the thrown
exception — the cleanup selector reads `destructValues`, teardown destroys
only the value tuple, and the predecessor operation — destroyed exactly once
during the handoff to reclaim the shared storage — is not destroyed a second
time; no successor is ever constructed. -/
theorem c5_factory_connect_throws
    {V C W E F X S : Type} (m : Model V C W E F X S) (vs : V) (c : C) (x : X)
    (hwf : m.NothrowConsistent)
    (hcopy : m.copyVals vs = .ok c)
    (hconn : m.factoryConnect c = .error x) :
    notes (runPred m (.value vs)).2 = [.error (.inr (.inr x))] ∧
    (runPred m (.value vs)).1.cleanup = .destructValues ∧
    (runPred m (.value vs)).1.predOpLive = false ∧
    destructor (runPred m (.value vs)).1 = some [Member.values] ∧
    destroyedMembers (runPred m (.value vs)).2 = [Member.predOp] ∧
    constructedMembers (runPred m (.value vs)).2 = [Member.values] := by
  have hnc : m.nothrowConn = false := by
    cases hb : m.nothrowConn
    · rfl
    · obtain ⟨so, hso⟩ := hwf hb c
      rw [hconn] at hso
      exact absurd hso (by simp)
  simp [runPred, predSetValue, hcopy, hconn, hnc, notes, destructor,
    Cleanup.destroys, constructedMembers, destroyedMembers]

/-- Witness for C5: in `throwingConnectModel` the copy of the value `4`
succeeds but the factory/connect step throws the exception `9`; the final
receiver sees that one error, the predecessor operation was destroyed once
during the handoff, and teardown destroys only the value tuple. -/
theorem c5_witness :
    notes (runPred throwingConnectModel (.value 4)).2 =
        [.error (.inr (.inr 9))] ∧
    (runPred throwingConnectModel (.value 4)).1.cleanup = .destructValues ∧
    (runPred throwingConnectModel (.value 4)).1.predOpLive = false ∧
    destructor (runPred throwingConnectModel (.value 4)).1 =
        some [Member.values] ∧
    destroyedMembers (runPred throwingConnectModel (.value 4)).2 =
        [Member.predOp] ∧
    constructedMembers (runPred throwingConnectModel (.value 4)).2 =
        [Member.values] :=
  c5_factory_connect_throws throwingConnectModel 4 4 9
    (fun h => absurd h (by decide)) rfl rfl

/-- C3: the cleanup selector invariant.  (a) Right after construction the
selector is `deactivatePredOp` and matches the live set; (b) after the run
triggered by any predecessor completion, the selector again matches exactly
the set of live storage members (`deactivatePredOp` iff only the predecessor
operation is live, `destructValues` iff only the value tuple is live,
`deactivateSuccOpAndDestructValues` iff value tuple and successor operation
are both live); (c) the selector is reassigned in strictly increasing
construction order; (d) the destructor invokes the recorded selector, which
destroys each live member exactly once and touches nothing else, so teardown
is correct wherever execution stopped. -/
theorem c3_cleanup_selector_invariant
    {V C W E F X S : Type} (m : Model V C W E F X S)
    (hwf : m.NothrowConsistent) :
    (initialState.cleanup = .deactivatePredOp ∧
        cleanupMatchesLive initialState) ∧
    (∀ out : Outcome V E, cleanupMatchesLive (runPred m out).1) ∧
    (∀ out : Outcome V E,
        List.Chain' (fun a b => a.stage < b.stage)
          (initialState.cleanup :: cleanupSets (runPred m out).2)) ∧
    (∀ st : OpState, cleanupMatchesLive st →
        destructor st = some st.cleanup.destroys ∧
        st.cleanup.destroys.Nodup ∧
        ∀ mem : Member, mem ∈ st.cleanup.destroys ↔ st.live mem = true) := by
  refine ⟨⟨rfl, by decide⟩, ?_, ?_, ?_⟩
  · intro out
    match out with
    | .done =>
      simp [runPred, predSetDone, cleanupMatchesLive, initialState]
    | .error e =>
      simp [runPred, predSetError, cleanupMatchesLive, initialState]
    | .value vs =>
      cases h1 : m.copyVals vs with
      | error x =>
        simp [runPred, predSetValue, h1, cleanupMatchesLive, initialState]
      | ok c =>
        cases hb : m.nothrowConn with
        | true =>
          obtain ⟨so, hso⟩ := hwf hb c
          simp [runPred, predSetValue, h1, hb, hso, cleanupMatchesLive,
            initialState]
        | false =>
          cases h2 : m.factoryConnect c with
          | error x =>
            simp [runPred, predSetValue, h1, hb, h2, cleanupMatchesLive,
              initialState]
          | ok so =>
            simp [runPred, predSetValue, h1, hb, h2, cleanupMatchesLive,
              initialState]
  · intro out
    match out with
    | .done =>
      simp [runPred, predSetDone, cleanupSets, initialState]
    | .error e =>
      simp [runPred, predSetError, cleanupSets, initialState]
    | .value vs =>
      cases h1 : m.copyVals vs with
      | error x =>
        simp [runPred, predSetValue, h1, cleanupSets, initialState]
      | ok c =>
        cases hb : m.nothrowConn with
        | true =>
          obtain ⟨so, hso⟩ := hwf hb c
          simp [runPred, predSetValue, h1, hb, hso, cleanupSets,
            Cleanup.stage, initialState]
        | false =>
          cases h2 : m.factoryConnect c with
          | error x =>
            simp [runPred, predSetValue, h1, hb, h2, cleanupSets,
              Cleanup.stage, initialState]
          | ok so =>
            simp [runPred, predSetValue, h1, hb, h2, cleanupSets,
              Cleanup.stage, initialState]
  · intro st h
    rcases h with ⟨hc, hp, hv, hs⟩ | ⟨hc, hp, hv, hs⟩ | ⟨hc, hp, hv, hs⟩ <;>
      refine ⟨by simp [destructor, hc], by simp [hc, Cleanup.destroys], ?_⟩ <;>
        intro mem <;> cases mem <;>
          simp [hc, Cleanup.destroys, OpState.live, hp, hv, hs]

/-- Witness for C3: in `exampleModel`, after the predecessor succeeds with
`2`, the cleanup selector matches the live members and the selector trace is
strictly increasing. -/
theorem c3_witness :
    cleanupMatchesLive (runPred exampleModel (.value 2)).1 ∧
    List.Chain' (fun a b => a.stage < b.stage)
      (initialState.cleanup :: cleanupSets (runPred exampleModel (.value 2)).2) :=
  ⟨(c3_cleanup_selector_invariant exampleModel (fun _ c => ⟨c, rfl⟩)).2.1
      (.value 2),
   (c3_cleanup_selector_invariant exampleModel (fun _ c => ⟨c, rfl⟩)).2.2.1
      (.value 2)⟩

/-- C9: destroying an operation state that was constructed but never started
(so no completion has occurred) runs the default cleanup, which destroys
exactly the predecessor operation; the value tuple and the successor storage
were never live and are not touched. -/
theorem c9_unstarted_destruction :
    destructor initialState = some [Member.predOp] ∧
    initialState.live Member.predOp = true ∧
    initialState.live Member.values = false ∧
    initialState.live Member.succOp = false := by
  decide

/-- C7: the combinator's declared success-value-shape set is exactly the
union, over the predecessor's own success-value shapes, of the value shapes
of the successor type the factory yields for that shape.  In particular a
shape of the predecessor itself appears in the result only if some successor
also has it. -/
theorem c7_value_shapes_union
    {Ty : Type} [DecidableEq Ty] (sig : LetValueSig Ty) (t : List Ty) :
    t ∈ letValueValueTypes sig ↔
      ∃ shape ∈ sig.pred.valueShapes, t ∈ (sig.succOf shape).valueShapes := by
  simp [letValueValueTypes, concatUnique, successors]

/-- Concrete signature for the blocking rule: a predecessor classified
`never` with two value shapes, whose successor types are classified `never`
and `always` respectively. -/
def blockingSig : LetValueSig Nat where
  pred :=
    { valueShapes := [[1], [2]]
      errorTypes := []
      sendsDone := false
      blocking := .never }
  succOf := fun shape =>
    { valueShapes := [shape]
      errorTypes := []
      sendsDone := false
      blocking := if shape = [1] then .never else .always }
  exceptionPtr := 0

/-- Helper: the result of `max_blocking_kind` (a left fold of `max`) is an
element of the list it folds over. -/
theorem foldl_max_mem {α : Type} [LinearOrder α] (first : α) (rest : List α) :
    rest.foldl max first ∈ first :: rest := by
  induction rest generalizing first with
  | nil => simp
  | cons b bs ih =>
    simp only [List.foldl_cons]
    rcases List.mem_cons.mp (ih (max first b)) with h1 | h1
    · rcases max_choice first b with hm | hm
      · exact List.mem_cons.mpr (Or.inl (h1.trans hm))
      · exact List.mem_cons.mpr
          (Or.inr (List.mem_cons.mpr (Or.inl (h1.trans hm))))
    · exact List.mem_cons.mpr (Or.inr (List.mem_cons.mpr (Or.inr h1)))

/-- Helper: the result of `max_blocking_kind` bounds every element of the
list it folds over. -/
theorem le_foldl_max {α : Type} [LinearOrder α] (first : α) (rest : List α) :
    ∀ b ∈ first :: rest, b ≤ rest.foldl max first := by
  induction rest generalizing first with
  | nil =>
    intro b hb
    rw [List.mem_singleton] at hb
    simp [hb]
  | cons c cs ih =>
    intro b hb
    simp only [List.foldl_cons]
    have hmax : max first c ≤ List.foldl max (max first c) cs :=
      ih (max first c) (max first c) (List.mem_cons_self _ _)
    rcases List.mem_cons.mp hb with h1 | h1
    · rw [h1]
      exact le_trans (le_max_left first c) hmax
    · rcases List.mem_cons.mp h1 with h2 | h2
      · rw [h2]
        exact le_trans (le_max_right first c) hmax
      · exact ih (max first c) b (List.mem_cons_of_mem _ h2)

/-- C8: both blocking classifications of the combinator equal
`max(pred, min(M, maybe))`, where `M` — the value of `max_blocking_kind`
over all possible successor types — is the maximum-severity successor
classification (it belongs to the successor list and bounds it); the static
form uses the predecessor's static classification and the runtime query uses
the predecessor's actual runtime value with the same static `M`. -/
theorem c8_blocking_rule
    {Ty : Type} (sig : LetValueSig Ty)
    (first : BlockingKind) (rest : List BlockingKind)
    (hsucc : successorBlockings sig = first :: rest) :
    maxBlockingKind first rest ∈ successorBlockings sig ∧
    (∀ b ∈ successorBlockings sig, b ≤ maxBlockingKind first rest) ∧
    letValueBlockingStatic sig =
      max sig.pred.blocking (min (maxBlockingKind first rest) .maybe) ∧
    (∀ predRuntime : BlockingKind,
        letValueBlockingRuntime sig predRuntime =
          max predRuntime (min (maxBlockingKind first rest) .maybe)) := by
  refine ⟨?_, ?_, ?_, ?_⟩
  · rw [hsucc]
    exact foldl_max_mem first rest
  · rw [hsucc]
    exact le_foldl_max first rest
  · simp only [letValueBlockingStatic, hsucc]
  · intro predRuntime
    simp only [letValueBlockingRuntime, hsucc]

/-- Failing input for the declared-error-set claim: a predecessor declaring
the error type `1` (distinct from the `std::exception_ptr` name `0`), with
one value shape, whose successor type declares no error types. -/
def predErrorSig : LetValueSig Nat where
  pred :=
    { valueShapes := [[5]]
      errorTypes := [1]
      sendsDone := false
      blocking := .maybe }
  succOf := fun _ =>
    { valueShapes := [[2]]
      errorTypes := []
      sendsDone := false
      blocking := .maybe }
  exceptionPtr := 0

/-- C6 is refuted on the code: `error_types_impl` (lines 367-372)
concatenates only the successor types' error types and
`std::exception_ptr`; the predecessor's own error types are absent from the
concatenation, even though `set_error` (lines 201-205) forwards predecessor
errors verbatim to the final receiver.  At `predErrorSig` the declared error
set is `[0]` (`std::exception_ptr` alone) and omits the predecessor's
declared error type `1`, while the run model shows a predecessor error of
exactly that type being delivered to the final receiver. -/
theorem c6_pred_errors_omitted :
    letValueErrorTypes predErrorSig = [0] ∧
    1 ∈ predErrorSig.pred.errorTypes ∧
    1 ∉ letValueErrorTypes predErrorSig ∧
    notes (runPred exampleModel (.error 1)).2 = [.error (.inl 1)] := by
  decide

/-- Signature over `Nat` whose predecessor and sole successor type declare
no error types at all (`0` names `std::exception_ptr`). -/
def noErrorSig : LetValueSig Nat where
  pred :=
    { valueShapes := [[3]]
      errorTypes := []
      sendsDone := false
      blocking := .maybe }
  succOf := fun _ =>
    { valueShapes := [[4]]
      errorTypes := []
      sendsDone := false
      blocking := .maybe }
  exceptionPtr := 0

/-- Instantiation in which no step can fail: the predecessor error,
successor error and exception types are the empty type, every construction
step is total, and the compile-time non-throwing check holds. -/
def totalModel : Model Nat Nat Nat Empty Empty Empty Nat where
  copyVals := fun v => .ok v
  nothrowConn := true
  factoryConnect := fun c => .ok c
  startSucc := fun s => .value s

/-- C10: the declared error-type set contains `std::exception_ptr` for every
signature, unconditionally; and at the concrete `noErrorSig` / `totalModel`
instance — where copying the values, invoking the factory and connecting the
successor are all provably non-throwing and neither predecessor nor
successor declares any error type — the declared set is still
`[exception_ptr]` while no run delivers any error notification at all, so
the declaration strictly over-approximates the producible errors. -/
theorem c10_exception_ptr_unconditional :
    (∀ (Ty : Type) [DecidableEq Ty] (sig : LetValueSig Ty),
        sig.exceptionPtr ∈ letValueErrorTypes sig) ∧
    letValueErrorTypes noErrorSig = [0] ∧
    (∀ out : Outcome Nat Empty,
        (notes (runPred totalModel out).2).all
          (fun n =>
            match n with
            | .error _ => false
            | _ => true) = true) := by
  refine ⟨?_, by decide, ?_⟩
  · intro Ty _ sig
    simp [letValueErrorTypes, concatUnique]
  · intro out
    match out with
    | .value v => rfl
    | .done => rfl
    | .error e => exact e.elim

/-- Witness for C8: the concrete signature `blockingSig`, whose successor
types are classified `never` and `always`, satisfies the blocking rule with
`M = always`. -/
theorem c8_witness :
    maxBlockingKind .never [.always] ∈ successorBlockings blockingSig ∧
    (∀ b ∈ successorBlockings blockingSig, b ≤ maxBlockingKind .never [.always]) ∧
    letValueBlockingStatic blockingSig =
      max blockingSig.pred.blocking (min (maxBlockingKind .never [.always]) .maybe) ∧
    (∀ predRuntime : BlockingKind,
        letValueBlockingRuntime blockingSig predRuntime =
          max predRuntime (min (maxBlockingKind .never [.always]) .maybe)) :=
  c8_blocking_rule blockingSig .never [.always] rfl

end LetValue
